import Mathlib

set_option maxRecDepth 4000

/-!
# Verification of the xuma/puma unified-matcher core

Shallow embedding of the matcher evaluation engine and configuration
pipeline of the `x.uma` repository:

* `_types.py` / `_predicate.py` — `MatchingData`, `SinglePredicate`,
  `And`, `Or`, `Not`, `predicate_depth`;
* `_matcher.py` — `Action`, `NestedMatcher`, `FieldMatcher`, `Matcher`
  with first-match-wins evaluation and depth validation;
* `_string_matchers.py` — `ExactMatcher`, `PrefixMatcher`,
  `SuffixMatcher`, `ContainsMatcher`, `RegexMatcher` with case folding;
* `_config.py` — the untyped-document parser;
* `_registry.py` — `Registry.load_matcher` with width and length limits.

Python's `str.casefold` and the `re2` regex engine are external to the
repository; they are modelled as explicit function parameters (`fold`,
`re2c`).
-/

namespace Xuma

/-- `MatchingData` from `_types.py`: the erased data union
`str | int | bool | bytes | None`.  The `none` constructor mirrors
Python `None` and triggers the `None → false` invariant. -/
inductive MatchingData where
  | str (s : String)
  | int (i : Int)
  | bool (b : Bool)
  | bytes (bs : List UInt8)
  | none
deriving Repr, DecidableEq

/-- `Predicate` from `_predicate.py`: `SinglePredicate` pairs a
`DataInput` (a pure projection `Ctx → MatchingData`) with an
`InputMatcher` (a total function `MatchingData → Bool`); `And`, `Or`
hold ordered child tuples, `Not` an inner predicate. -/
inductive Predicate (Ctx : Type) where
  | single (input : Ctx → MatchingData) (matcher : MatchingData → Bool)
  | and (predicates : List (Predicate Ctx))
  | or (predicates : List (Predicate Ctx))
  | not (predicate : Predicate Ctx)

/-- `SinglePredicate.evaluate` / `And.evaluate` / `Or.evaluate` /
`Not.evaluate` from `_predicate.py`.  Single: `value = input.get(ctx)`,
`None → False` without consulting the matcher, otherwise
`matcher.matches(value)`.  And/Or: Python `all(...)` / `any(...)` over
the children in order, short-circuiting. -/
def Predicate.evaluate {Ctx : Type} : Predicate Ctx → Ctx → Bool
  | .single input matcher, ctx =>
      match input ctx with
      | .none => false
      | v => matcher v
  | .and ps, ctx => evalAll ps ctx
  | .or ps, ctx => evalAny ps ctx
  | .not p, ctx => !(p.evaluate ctx)
where
  /-- Python `all(p.evaluate(ctx) for p in self.predicates)`. -/
  evalAll : List (Predicate Ctx) → Ctx → Bool
    | [], _ => true
    | p :: ps, ctx => p.evaluate ctx && evalAll ps ctx
  /-- Python `any(p.evaluate(ctx) for p in self.predicates)`. -/
  evalAny : List (Predicate Ctx) → Ctx → Bool
    | [], _ => false
    | p :: ps, ctx => p.evaluate ctx || evalAny ps ctx

/-- `predicate_depth` from `_predicate.py`: Single ↦ 1,
And/Or ↦ 1 + max over children (default 0), Not ↦ 1 + inner. -/
def predicate_depth {Ctx : Type} : Predicate Ctx → Nat
  | .single _ _ => 1
  | .and ps => 1 + depthMax ps
  | .or ps => 1 + depthMax ps
  | .not p => 1 + predicate_depth p
where
  /-- Python `max((predicate_depth(sub) for sub in ps), default=0)`. -/
  depthMax : List (Predicate Ctx) → Nat
    | [] => 0
    | p :: ps => Nat.max (predicate_depth p) (depthMax ps)

mutual
/-- `OnMatch` from `_matcher.py`: the exclusive variant
`Action[A] | NestedMatcher[Ctx, A]`. -/
inductive OnMatch (Ctx A : Type) where
  | action (value : A)
  | nested (matcher : Matcher Ctx A)

/-- `FieldMatcher` from `_matcher.py`: a predicate paired with an
`OnMatch`. -/
inductive FieldMatcher (Ctx A : Type) where
  | mk (predicate : Predicate Ctx) (on_match : OnMatch Ctx A)

/-- `Matcher` from `_matcher.py`: an ordered `matcher_list` of field
matchers plus an optional `on_no_match` fallback.  (The raw tree;
depth validation lives in the smart constructor `Matcher.make`.) -/
inductive Matcher (Ctx A : Type) where
  | mk (matcher_list : List (FieldMatcher Ctx A))
       (on_no_match : Option (OnMatch Ctx A))
end

/-- Accessor for the field-matcher list. -/
def Matcher.matcher_list {Ctx A : Type} : Matcher Ctx A → List (FieldMatcher Ctx A)
  | .mk fms _ => fms

/-- Accessor for the `on_no_match` fallback. -/
def Matcher.on_no_match {Ctx A : Type} : Matcher Ctx A → Option (OnMatch Ctx A)
  | .mk _ onn => onn

/-- Accessor for a field matcher's predicate. -/
def FieldMatcher.predicate {Ctx A : Type} : FieldMatcher Ctx A → Predicate Ctx
  | .mk p _ => p

/-- Accessor for a field matcher's `on_match`. -/
def FieldMatcher.on_match {Ctx A : Type} : FieldMatcher Ctx A → OnMatch Ctx A
  | .mk _ om => om

mutual
/-- `Matcher.evaluate` from `_matcher.py`: scan `matcher_list` in
order; when a predicate holds, consult its `on_match`; a non-`None`
result returns immediately, a `None` result continues the scan; after
the loop, `on_no_match` is consulted if present, else `None`. -/
def Matcher.evaluate {Ctx A : Type} : Matcher Ctx A → Ctx → Option A
  | .mk fms onn, ctx =>
      match evalFieldMatchers fms ctx with
      | some a => some a
      | Option.none =>
          match onn with
          | some om => evaluate_on_match om ctx
          | Option.none => Option.none

/-- The `for fm in self.matcher_list` loop body of `Matcher.evaluate`. -/
def evalFieldMatchers {Ctx A : Type} : List (FieldMatcher Ctx A) → Ctx → Option A
  | [], _ => Option.none
  | .mk p om :: rest, ctx =>
      if p.evaluate ctx then
        match evaluate_on_match om ctx with
        | some a => some a
        | Option.none => evalFieldMatchers rest ctx
      else
        evalFieldMatchers rest ctx

/-- `_evaluate_on_match` from `_matcher.py`: `Action(v) ↦ v`,
`NestedMatcher(m) ↦ m.evaluate(ctx)`. -/
def evaluate_on_match {Ctx A : Type} : OnMatch Ctx A → Ctx → Option A
  | .action v, _ => some v
  | .nested m, ctx => m.evaluate ctx
end

mutual
/-- `Matcher.depth` from `_matcher.py`:
`1 + max(max predicate depth, max on_match depth, on_no_match depth)`,
each max defaulting to 0. -/
def Matcher.depth {Ctx A : Type} : Matcher Ctx A → Nat
  | .mk fms onn =>
      1 + Nat.max (predDepthMax fms)
            (Nat.max (onMatchDepthMax fms)
              (match onn with
               | some om => on_match_depth om
               | Option.none => 0))

/-- Python `max((predicate_depth(fm.predicate) for fm in ...), default=0)`. -/
def predDepthMax {Ctx A : Type} : List (FieldMatcher Ctx A) → Nat
  | [] => 0
  | fm :: rest => Nat.max (predicate_depth fm.predicate) (predDepthMax rest)

/-- Python `max((_on_match_depth(fm.on_match) for fm in ...), default=0)`. -/
def onMatchDepthMax {Ctx A : Type} : List (FieldMatcher Ctx A) → Nat
  | [] => 0
  | .mk _ om :: rest => Nat.max (on_match_depth om) (onMatchDepthMax rest)

/-- `_on_match_depth` from `_matcher.py`: `Action ↦ 0`,
`NestedMatcher(m) ↦ m.depth()`. -/
def on_match_depth {Ctx A : Type} : OnMatch Ctx A → Nat
  | .action _ => 0
  | .nested m => m.depth
end

/-- `MAX_DEPTH` from `_matcher.py`. -/
def MAX_DEPTH : Nat := 32

/-- Errors of the matcher core (`MatcherError` and its subclasses from
`_matcher.py` / `_registry.py`).  `base` is a plain `MatcherError`
carrying only a message (depth validation, regex compilation). -/
inductive MatcherErr where
  | base (msg : String)
  | unknownTypeUrl (type_url : String) (registry : String) (available : List String)
  | invalidConfig (source : String)
  | tooManyFieldMatchers (count max : Nat)
  | tooManyPredicates (count max : Nat)
  | patternTooLong (length max : Nat)
deriving Repr, DecidableEq

/-- `Matcher.__post_init__` / `Matcher.validate` from `_matcher.py`:
construction computes `depth()` and raises `MatcherError` when it
exceeds `MAX_DEPTH`; otherwise the frozen matcher is returned. -/
def Matcher.make {Ctx A : Type} (fms : List (FieldMatcher Ctx A))
    (onn : Option (OnMatch Ctx A)) : Except MatcherErr (Matcher Ctx A) :=
  let m : Matcher Ctx A := .mk fms onn
  let d := m.depth
  if d > MAX_DEPTH then
    .error (.base ("matcher depth " ++ toString d ++
      " exceeds maximum allowed depth " ++ toString MAX_DEPTH))
  else
    .ok m

/-! ## String matchers (`_string_matchers.py`)

Python's `str.casefold` (Unicode full case folding) and the `re2`
regex engine are external to the repository; they enter the embedding
as explicit parameters: `fold` for `casefold`, and an `Externals`
bundle for the loader.  `re2c pattern = some err` models
`re2.compile(pattern)` raising `re2.error(err)`; `none` models a
successful compile, whose `search` behaviour is `re2s pattern`. -/

/-- External functions used by the string matchers: `str.casefold`,
`re2.compile` (error message on failure) and the compiled pattern's
`search` (true iff the pattern matches somewhere in the input). -/
structure Externals where
  fold : String → String
  re2c : String → Option String
  re2s : String → String → Bool

/-- `ExactMatcher` from `_string_matchers.py`: fields `value`,
`ignore_case` and the construction-time cache `_cmp_value`. -/
structure ExactMatcher where
  value : String
  ignore_case : Bool
  _cmp_value : String

/-- `ExactMatcher.__post_init__`: `_cmp_value` is
`value.casefold() if ignore_case else value`, computed once. -/
def ExactMatcher.make (fold : String → String) (value : String)
    (ignore_case : Bool) : ExactMatcher :=
  { value, ignore_case
    _cmp_value := if ignore_case then fold value else value }

/-- `ExactMatcher.matches`: non-strings are `False`; the input is
folded per call when `ignore_case`, then compared to `_cmp_value`. -/
def ExactMatcher.matches (fold : String → String) (m : ExactMatcher) :
    MatchingData → Bool
  | .str v => (if m.ignore_case then fold v else v) == m._cmp_value
  | _ => false

/-- `PrefixMatcher` from `_string_matchers.py` (source field names
`prefix` / `_cmp_prefix`, renamed here because `prefix` is reserved). -/
structure PrefixMatcher where
  prefixStr : String
  ignore_case : Bool
  _cmp_prefixStr : String

/-- `PrefixMatcher.__post_init__`. -/
def PrefixMatcher.make (fold : String → String) (p : String)
    (ignore_case : Bool) : PrefixMatcher :=
  { prefixStr := p, ignore_case
    _cmp_prefixStr := if ignore_case then fold p else p }

/-- `PrefixMatcher.matches`: Python `input_val.startswith(self._cmp_prefix)`. -/
def PrefixMatcher.matches (fold : String → String) (m : PrefixMatcher) :
    MatchingData → Bool
  | .str v => (if m.ignore_case then fold v else v).startsWith m._cmp_prefixStr
  | _ => false

/-- `SuffixMatcher` from `_string_matchers.py`. -/
structure SuffixMatcher where
  suffix : String
  ignore_case : Bool
  _cmp_suffix : String

/-- `SuffixMatcher.__post_init__`. -/
def SuffixMatcher.make (fold : String → String) (s : String)
    (ignore_case : Bool) : SuffixMatcher :=
  { suffix := s, ignore_case
    _cmp_suffix := if ignore_case then fold s else s }

/-- `SuffixMatcher.matches`: Python `input_val.endswith(self._cmp_suffix)`. -/
def SuffixMatcher.matches (fold : String → String) (m : SuffixMatcher) :
    MatchingData → Bool
  | .str v => (if m.ignore_case then fold v else v).endsWith m._cmp_suffix
  | _ => false

/-- `ContainsMatcher` from `_string_matchers.py`. -/
structure ContainsMatcher where
  substring : String
  ignore_case : Bool
  _cmp_substring : String

/-- `ContainsMatcher.__post_init__`. -/
def ContainsMatcher.make (fold : String → String) (sub : String)
    (ignore_case : Bool) : ContainsMatcher :=
  { substring := sub, ignore_case
    _cmp_substring := if ignore_case then fold sub else sub }

/-- `ContainsMatcher.matches`: Python `self._cmp_substring in input_val`
(substring containment, modelled as infix of the character lists). -/
def ContainsMatcher.matches (fold : String → String) (m : ContainsMatcher) :
    MatchingData → Bool
  | .str v => decide
      (m._cmp_substring.data <:+: (if m.ignore_case then fold v else v).data)
  | _ => false

/-- `RegexMatcher` from `_string_matchers.py`: pattern plus the
compiled automaton's search function. -/
structure RegexMatcher where
  pattern : String
  compiled : String → Bool

/-- `RegexMatcher.__post_init__`: `re2.compile(self.pattern)`;
`re2.error` is wrapped as a plain `MatcherError` with message
`invalid regex pattern "<pattern>": <e>`. -/
def RegexMatcher.make (E : Externals) (pattern : String) :
    Except MatcherErr RegexMatcher :=
  match E.re2c pattern with
  | some e => .error (.base ("invalid regex pattern \"" ++ pattern ++ "\": " ++ e))
  | Option.none => .ok { pattern, compiled := E.re2s pattern }

/-- `RegexMatcher.matches`: `self._compiled.search(value) is not None`. -/
def RegexMatcher.matches (m : RegexMatcher) : MatchingData → Bool
  | .str v => m.compiled v
  | _ => false

/-- Python `str(e)` of a `MatcherError` (the message passed to
`super().__init__`); only the `base` case is exercised by the loader's
regex wrapping. -/
def MatcherErr.message : MatcherErr → String
  | .base msg => msg
  | .unknownTypeUrl url reg _ => "unknown " ++ reg ++ " type_url: " ++ url
  | .invalidConfig source => "invalid config: " ++ source
  | .tooManyFieldMatchers c m =>
      "too many field matchers: " ++ toString c ++ " exceeds maximum " ++ toString m
  | .tooManyPredicates c m =>
      "too many predicates in compound: " ++ toString c ++ " exceeds maximum " ++ toString m
  | .patternTooLong l m =>
      "pattern length " ++ toString l ++ " exceeds maximum " ++ toString m

/-! ## Untyped documents and the config AST (`_config.py`) -/

/-- An untyped JSON/YAML document: the input shape of
`parse_matcher_config`. -/
inductive Doc where
  | str (s : String)
  | int (i : Int)
  | bool (b : Bool)
  | null
  | arr (items : List Doc)
  | dict (entries : List (String × Doc))

/-- Python `dict` key lookup (`data.get(k)` / `data[k]`): first
matching key of the entry list. -/
def assocGet {α : Type} (entries : List (String × α)) (k : String) : Option α :=
  match entries with
  | [] => Option.none
  | (k', v) :: rest => if k' = k then some v else assocGet rest k

/-- Python `type(x).__name__` for document values, used in parse error
messages. -/
def Doc.pyType : Doc → String
  | .str _ => "str"
  | .int _ => "int"
  | .bool _ => "bool"
  | .null => "NoneType"
  | .arr _ => "list"
  | .dict _ => "dict"

/-- Python `repr` of a document value, used in the unknown-type error
messages (containers abbreviated). -/
def Doc.pyRepr : Doc → String
  | .str s => "'" ++ s ++ "'"
  | .int i => toString i
  | .bool b => if b then "True" else "False"
  | .null => "None"
  | .arr _ => "[...]"
  | .dict _ => "\x7b...\x7d"

/-- `TypedConfig` from `_config.py`. -/
structure TypedConfig where
  type_url : String
  config : List (String × Doc)

/-- `BuiltInMatch` from `_config.py`. -/
structure BuiltInMatch where
  variant : String
  value : String
deriving DecidableEq

/-- `CustomMatch` from `_config.py`. -/
structure CustomMatch where
  typed_config : TypedConfig

/-- `ValueMatchConfig = BuiltInMatch | CustomMatch`. -/
inductive ValueMatchConfig where
  | builtIn (b : BuiltInMatch)
  | custom (c : CustomMatch)

/-- `PredicateConfig` from `_config.py`: `SinglePredicateConfig`,
`AndPredicateConfig`, `OrPredicateConfig`, `NotPredicateConfig`. -/
inductive PredicateConfig where
  | single (input : TypedConfig) (matcher : ValueMatchConfig)
  | and (predicates : List PredicateConfig)
  | or (predicates : List PredicateConfig)
  | not (predicate : PredicateConfig)

mutual
/-- `OnMatchConfig = ActionConfig | MatcherOnMatchConfig` (action
payloads are untyped documents, as in the parser). -/
inductive OnMatchConfig where
  | action (action : Doc)
  | matcher (matcher : MatcherConfig)

/-- `FieldMatcherConfig` from `_config.py`. -/
inductive FieldMatcherConfig where
  | mk (predicate : PredicateConfig) (on_match : OnMatchConfig)

/-- `MatcherConfig` from `_config.py`. -/
inductive MatcherConfig where
  | mk (matchers : List FieldMatcherConfig) (on_no_match : Option OnMatchConfig)
end

/-- Errors raised by the parser: `ConfigParseError` plus the dynamic
`TypeError` Python raises when iterating a non-list `predicates`
value. -/
inductive ParseErr where
  | configParse (msg : String)
  | typeError (msg : String)
deriving DecidableEq

/-- `_STRING_MATCH_VARIANTS` from `_config.py` (iteration order of the
frozenset fixed to the literal's order). -/
def STRING_MATCH_VARIANTS : List String :=
  ["Exact", "Prefix", "Suffix", "Contains", "Regex"]

/-- Looking a key up in a document dict yields a strictly smaller
document (for the parser's termination measure). -/
theorem sizeOf_assocGet {entries : List (String × Doc)} {k : String} {v : Doc}
    (h : assocGet entries k = some v) : sizeOf v < sizeOf entries := by
  induction entries with
  | nil => simp [assocGet] at h
  | cons e rest ih =>
      obtain ⟨k', v'⟩ := e
      rw [assocGet] at h
      by_cases hk : k' = k
      · simp [hk] at h
        subst h
        simp
        omega
      · simp [hk] at h
        have := ih h
        simp
        omega

/-- `_parse_typed_config` from `_config.py`: requires a dict with a
string `type_url`; `config` defaults to an empty map when absent. -/
def parse_typed_config : Doc → Except ParseErr TypedConfig
  | .dict entries =>
      match assocGet entries "type_url" with
      | Option.none =>
          .error (.configParse "typed_config missing required field 'type_url'")
      | some (.str u) =>
          match assocGet entries "config" with
          | Option.none => .ok ⟨u, []⟩
          | some (.dict cfg) => .ok ⟨u, cfg⟩
          | some other =>
              .error (.configParse ("config must be a dict, got " ++ other.pyType))
      | some other =>
          .error (.configParse ("type_url must be a string, got " ++ other.pyType))
  | other => .error (.configParse ("typed_config must be a dict, got " ++ other.pyType))

/-- `_parse_value_match` from `_config.py`: the dict must hold exactly
one known variant key whose value is a string; the variants are probed
in the frozenset's order. -/
def parse_value_match : Doc → Except ParseErr BuiltInMatch
  | .dict entries => goVariants entries STRING_MATCH_VARIANTS
  | other => .error (.configParse ("value_match must be a dict, got " ++ other.pyType))
where
  /-- The `for variant in _STRING_MATCH_VARIANTS` probe loop. -/
  goVariants (entries : List (String × Doc)) :
      List String → Except ParseErr BuiltInMatch
    | [] =>
        .error (.configParse
          "value_match must contain one of ['Contains', 'Exact', 'Prefix', 'Regex', 'Suffix']")
    | v :: vs =>
        match assocGet entries v with
        | some (.str s) => .ok ⟨v, s⟩
        | some other =>
            .error (.configParse
              ("value_match " ++ v ++ " value must be a string, got " ++ other.pyType))
        | Option.none => goVariants entries vs

/-- `_parse_single_predicate` from `_config.py`: `input` is required
and parsed first; then the oneof check — both `value_match` and
`custom_match` present, or neither present, is a `ConfigParseError`;
the present one is parsed into `BuiltInMatch` resp. `CustomMatch`. -/
def parse_single_predicate (entries : List (String × Doc)) :
    Except ParseErr PredicateConfig :=
  match assocGet entries "input" with
  | Option.none =>
      .error (.configParse "single predicate missing required field 'input'")
  | some din => do
      let input_cfg ← parse_typed_config din
      match assocGet entries "value_match", assocGet entries "custom_match" with
      | some _, some _ =>
          .error (.configParse
            "exactly one of 'value_match' or 'custom_match' must be set, got both")
      | Option.none, Option.none =>
          .error (.configParse "one of 'value_match' or 'custom_match' is required")
      | some vm, Option.none => do
          let bm ← parse_value_match vm
          .ok (.single input_cfg (.builtIn bm))
      | Option.none, some cm => do
          let tc ← parse_typed_config cm
          .ok (.single input_cfg (.custom ⟨tc⟩))

mutual
/-- `_parse_predicate` from `_config.py`: dispatch on the `type`
discriminator (`data.get("type")`, so an explicit `null` counts as
missing); `and`/`or` default their `predicates` key to the empty list;
`not` requires `predicate`. -/
def parse_predicate : Doc → Except ParseErr PredicateConfig
  | .dict entries =>
      match assocGet entries "type" with
      | Option.none | some .null =>
          .error (.configParse "predicate missing required field 'type'")
      | some (Doc.str "single") => parse_single_predicate entries
      | some (Doc.str "and") =>
          (match _h : assocGet entries "predicates" with
           | Option.none => .ok (.and [])
           | some (.arr items) => do
               let ps ← parse_predicate_list items
               .ok (.and ps)
           | some other =>
               .error (.typeError ("'" ++ other.pyType ++ "' object is not iterable")))
      | some (Doc.str "or") =>
          (match _h : assocGet entries "predicates" with
           | Option.none => .ok (.or [])
           | some (.arr items) => do
               let ps ← parse_predicate_list items
               .ok (.or ps)
           | some other =>
               .error (.typeError ("'" ++ other.pyType ++ "' object is not iterable")))
      | some (Doc.str "not") =>
          (match _h : assocGet entries "predicate" with
           | Option.none =>
               .error (.configParse "not predicate missing required field 'predicate'")
           | some inner => do
               let p ← parse_predicate inner
               .ok (.not p))
      | some other =>
          .error (.configParse ("unknown predicate type: " ++ other.pyRepr))
  | other => .error (.configParse ("predicate must be a dict, got " ++ other.pyType))
termination_by d => sizeOf d
decreasing_by
  all_goals simp_wf
  all_goals (have h9 := sizeOf_assocGet _h; simp at h9 ⊢; omega)

/-- The `tuple(_parse_predicate(p) for p in children)` comprehension. -/
def parse_predicate_list : List Doc → Except ParseErr (List PredicateConfig)
  | [] => .ok []
  | d :: ds => do
      let p ← parse_predicate d
      let ps ← parse_predicate_list ds
      .ok (p :: ps)
termination_by ds => sizeOf ds
decreasing_by
  all_goals simp_wf
  all_goals omega
end

mutual
/-- `parse_matcher_config` from `_config.py`: requires a dict whose
`matchers` is a list (`data.get`, so explicit `null` counts as
missing); field matchers are parsed in order, then `on_no_match` is
parsed when the key is present. -/
def parse_matcher_config : Doc → Except ParseErr MatcherConfig
  | .dict entries =>
      (match _hm : assocGet entries "matchers" with
       | Option.none | some .null =>
           .error (.configParse "missing required field 'matchers'")
       | some (.arr raw) => do
           let ms ← parse_field_matcher_list raw
           match _h : assocGet entries "on_no_match" with
           | Option.none => .ok (.mk ms Option.none)
           | some d => do
               let om ← parse_on_match d
               .ok (.mk ms (some om))
       | some other =>
           .error (.configParse ("'matchers' must be a list, got " ++ other.pyType)))
  | other => .error (.configParse ("expected dict, got " ++ other.pyType))
termination_by d => sizeOf d
decreasing_by
  all_goals simp_wf
  all_goals first
    | (have h9 := sizeOf_assocGet _h; simp at h9 ⊢; omega)
    | (have h9 := sizeOf_assocGet _hm; simp at h9 ⊢; omega)

/-- `_parse_field_matcher` from `_config.py`: requires a dict with
`predicate` and `on_match` keys; the predicate is parsed first. -/
def parse_field_matcher : Doc → Except ParseErr FieldMatcherConfig
  | .dict entries =>
      (match assocGet entries "predicate" with
       | Option.none =>
           .error (.configParse "field_matcher missing required field 'predicate'")
       | some dp =>
           match _h : assocGet entries "on_match" with
           | Option.none =>
               .error (.configParse "field_matcher missing required field 'on_match'")
           | some dm => do
               let p ← parse_predicate dp
               let om ← parse_on_match dm
               .ok (.mk p om))
  | other => .error (.configParse ("field_matcher must be a dict, got " ++ other.pyType))
termination_by d => sizeOf d
decreasing_by
  all_goals simp_wf
  all_goals (have h9 := sizeOf_assocGet _h; simp at h9 ⊢; omega)

/-- The `tuple(_parse_field_matcher(fm) for fm in raw_matchers)`
comprehension. -/
def parse_field_matcher_list : List Doc → Except ParseErr (List FieldMatcherConfig)
  | [] => .ok []
  | d :: ds => do
      let fm ← parse_field_matcher d
      let fms ← parse_field_matcher_list ds
      .ok (fm :: fms)
termination_by ds => sizeOf ds
decreasing_by
  all_goals simp_wf
  all_goals omega

/-- `_parse_on_match` from `_config.py`: dispatch on the `type`
discriminator (`data.get("type")`, so explicit `null` counts as
missing); `action` requires an `action` key (any value), `matcher`
requires a `matcher` key parsed as a nested matcher config. -/
def parse_on_match : Doc → Except ParseErr OnMatchConfig
  | .dict entries =>
      (match assocGet entries "type" with
       | Option.none | some .null =>
           .error (.configParse "on_match missing required field 'type'")
       | some (Doc.str "action") =>
           (match assocGet entries "action" with
            | Option.none =>
                .error (.configParse "action on_match missing required field 'action'")
            | some a => .ok (.action a))
       | some (Doc.str "matcher") =>
           (match _h : assocGet entries "matcher" with
            | Option.none =>
                .error (.configParse "matcher on_match missing required field 'matcher'")
            | some dm => do
                let mc ← parse_matcher_config dm
                .ok (.matcher mc))
       | some other =>
           .error (.configParse ("unknown on_match type: " ++ other.pyRepr)))
  | other => .error (.configParse ("on_match must be a dict, got " ++ other.pyType))
termination_by d => sizeOf d
decreasing_by
  all_goals simp_wf
  all_goals (have h9 := sizeOf_assocGet _h; simp at h9 ⊢; omega)
end

/-! ## Helper definitions -/

/-- The contribution of one `FieldMatcher` to the scan loop of
`Matcher.evaluate`: `None` when its predicate fails, otherwise the
value of its `on_match`. -/
def fieldResult {Ctx A : Type} (fm : FieldMatcher Ctx A) (ctx : Ctx) : Option A :=
  if fm.predicate.evaluate ctx then evaluate_on_match fm.on_match ctx
  else Option.none

/-! ## Registry and loader (`_registry.py`) -/

/-- `MAX_FIELD_MATCHERS` from `_registry.py`. -/
def MAX_FIELD_MATCHERS : Nat := 256

/-- `MAX_PREDICATES_PER_COMPOUND` from `_registry.py`. -/
def MAX_PREDICATES_PER_COMPOUND : Nat := 256

/-- `MAX_PATTERN_LENGTH` from `_registry.py`. -/
def MAX_PATTERN_LENGTH : Nat := 8192

/-- `MAX_REGEX_PATTERN_LENGTH` from `_registry.py`. -/
def MAX_REGEX_PATTERN_LENGTH : Nat := 4096

/-- `Registry` from `_registry.py`: immutable tables of `DataInput`
and `InputMatcher` factories keyed by type URL.  A factory is a
callable on the config payload that may raise (`Except.error` carries
Python's `str(e)`). -/
structure Registry (Ctx : Type) where
  input_factories :
    List (String × (List (String × Doc) → Except String (Ctx → MatchingData)))
  matcher_factories :
    List (String × (List (String × Doc) → Except String (MatchingData → Bool)))

/-- `sorted(...)` on type-URL lists (`UnknownTypeUrlError.__init__`
sorts the available URLs). -/
def sortStrings (l : List String) : List String :=
  l.mergeSort (fun a b => decide (a ≤ b))

/-- `_check_pattern_length` from `_registry.py`: `Regex` patterns are
bounded by `MAX_REGEX_PATTERN_LENGTH`, every other variant by
`MAX_PATTERN_LENGTH`. -/
def check_pattern_length (variant value : String) : Except MatcherErr Unit :=
  if variant = "Regex" then
    if value.length > MAX_REGEX_PATTERN_LENGTH then
      .error (.patternTooLong value.length MAX_REGEX_PATTERN_LENGTH)
    else .ok ()
  else if value.length > MAX_PATTERN_LENGTH then
    .error (.patternTooLong value.length MAX_PATTERN_LENGTH)
  else .ok ()

/-- `_compile_built_in` from `_registry.py`: length check first, then
variant dispatch; a `RegexMatcher` construction failure is caught and
re-raised as `InvalidConfigError("invalid regex pattern: <e>")`. -/
def compile_built_in (E : Externals) (variant value : String) :
    Except MatcherErr (MatchingData → Bool) :=
  match check_pattern_length variant value with
  | .error e => .error e
  | .ok _ =>
  match variant with
  | "Exact" => .ok (ExactMatcher.matches E.fold (ExactMatcher.make E.fold value false))
  | "Prefix" => .ok (PrefixMatcher.matches E.fold (PrefixMatcher.make E.fold value false))
  | "Suffix" => .ok (SuffixMatcher.matches E.fold (SuffixMatcher.make E.fold value false))
  | "Contains" => .ok (ContainsMatcher.matches E.fold (ContainsMatcher.make E.fold value false))
  | "Regex" =>
      match RegexMatcher.make E value with
      | .ok rm => .ok rm.matches
      | .error e => .error (.invalidConfig ("invalid regex pattern: " ++ e.message))
  | _ => .error (.invalidConfig ("unknown built-in match variant: '" ++ variant ++ "'"))

/-- `Registry._load_value_match` from `_registry.py`: built-in specs
go through `_compile_built_in`; custom specs resolve a matcher factory
(unknown URL and factory exceptions map to `UnknownTypeUrlError` and
`InvalidConfigError`). -/
def Registry.load_value_match {Ctx : Type} (E : Externals) (r : Registry Ctx) :
    ValueMatchConfig → Except MatcherErr (MatchingData → Bool)
  | .builtIn bm => compile_built_in E bm.variant bm.value
  | .custom cm =>
      match assocGet r.matcher_factories cm.typed_config.type_url with
      | Option.none =>
          .error (.unknownTypeUrl cm.typed_config.type_url "matcher"
            (sortStrings (r.matcher_factories.map Prod.fst)))
      | some f =>
          match f cm.typed_config.config with
          | .error e => .error (.invalidConfig e)
          | .ok m => .ok m

/-- `Registry._load_single` from `_registry.py`: resolve the input
factory (else `UnknownTypeUrlError`), invoke it (exceptions wrapped as
`InvalidConfigError`), then resolve the value match. -/
def Registry.load_single {Ctx : Type} (E : Externals) (r : Registry Ctx)
    (input : TypedConfig) (matcher : ValueMatchConfig) :
    Except MatcherErr (Predicate Ctx) :=
  match assocGet r.input_factories input.type_url with
  | Option.none =>
      .error (.unknownTypeUrl input.type_url "input"
        (sortStrings (r.input_factories.map Prod.fst)))
  | some f =>
      match f input.config with
      | .error e => .error (.invalidConfig e)
      | .ok di => do
          let m ← r.load_value_match E matcher
          .ok (.single di m)

mutual
/-- `Registry.load_matcher` from `_registry.py`: reject more than
`MAX_FIELD_MATCHERS` field matchers at entry, load the field matchers
in order, then `on_no_match`, and finally construct the `Matcher`
(whose constructor validates depth). -/
def Registry.load_matcher {Ctx : Type} (E : Externals) (r : Registry Ctx) :
    MatcherConfig → Except MatcherErr (Matcher Ctx Doc)
  | .mk ms onn =>
      if ms.length > MAX_FIELD_MATCHERS then
        .error (.tooManyFieldMatchers ms.length MAX_FIELD_MATCHERS)
      else do
        let fms ← r.load_field_matcher_list E ms
        match onn with
        | some om => do
            let om2 ← r.load_on_match E om
            Matcher.make fms (some om2)
        | Option.none => Matcher.make fms Option.none

/-- The `tuple(self._load_field_matcher(fm) for fm in config.matchers)`
comprehension; `_load_field_matcher` loads the predicate, then the
`on_match`. -/
def Registry.load_field_matcher_list {Ctx : Type} (E : Externals) (r : Registry Ctx) :
    List FieldMatcherConfig → Except MatcherErr (List (FieldMatcher Ctx Doc))
  | [] => .ok []
  | .mk pc omc :: rest => do
      let p ← r.load_predicate E pc
      let om ← r.load_on_match E omc
      let fms ← r.load_field_matcher_list E rest
      .ok (.mk p om :: fms)

/-- `Registry._load_predicate` from `_registry.py`: compound
predicates are width-checked (`MAX_PREDICATES_PER_COMPOUND`) before
their children are loaded recursively. -/
def Registry.load_predicate {Ctx : Type} (E : Externals) (r : Registry Ctx) :
    PredicateConfig → Except MatcherErr (Predicate Ctx)
  | .single input matcher => r.load_single E input matcher
  | .and children =>
      if children.length > MAX_PREDICATES_PER_COMPOUND then
        .error (.tooManyPredicates children.length MAX_PREDICATES_PER_COMPOUND)
      else do
        let ps ← r.load_predicate_list E children
        .ok (.and ps)
  | .or children =>
      if children.length > MAX_PREDICATES_PER_COMPOUND then
        .error (.tooManyPredicates children.length MAX_PREDICATES_PER_COMPOUND)
      else do
        let ps ← r.load_predicate_list E children
        .ok (.or ps)
  | .not inner => do
      let p ← r.load_predicate E inner
      .ok (.not p)

/-- The `tuple(self._load_predicate(p) for p in children)` comprehension. -/
def Registry.load_predicate_list {Ctx : Type} (E : Externals) (r : Registry Ctx) :
    List PredicateConfig → Except MatcherErr (List (Predicate Ctx))
  | [] => .ok []
  | pc :: rest => do
      let p ← r.load_predicate E pc
      let ps ← r.load_predicate_list E rest
      .ok (p :: ps)

/-- `Registry._load_on_match` from `_registry.py`: `ActionConfig`
wraps the action; `MatcherOnMatchConfig` recursively loads the nested
matcher. -/
def Registry.load_on_match {Ctx : Type} (E : Externals) (r : Registry Ctx) :
    OnMatchConfig → Except MatcherErr (OnMatch Ctx Doc)
  | .action a => .ok (.action a)
  | .matcher mc => do
      let m ← r.load_matcher E mc
      .ok (.nested m)
end

/-! ## Concrete instances used by witnesses and counterexamples -/

/-- A predicate of depth `n + 1`: `n` nested `Not`s around a `Single`. -/
def deepPred : Nat → Predicate Unit
  | 0 => .single (fun _ => .none) (fun _ => false)
  | n + 1 => .not (deepPred n)

/-- Externals whose regex engine accepts every pattern (fold is the
identity). -/
def demoE : Externals :=
  { fold := id, re2c := fun _ => Option.none, re2s := fun _ _ => true }

/-- Externals whose regex engine rejects the backreference pattern
`(a)\\1` with an error message, as `re2` does, and accepts everything
else. -/
def rejectE : Externals :=
  { fold := id
    re2c := fun p =>
      if p = "(a)\\1" then some "invalid escape sequence: \\1" else Option.none
    re2s := fun _ _ => true }

/-- A registry with a single input factory, used to exercise the
loader on otherwise-valid configs. -/
def demoR : Registry Unit :=
  { input_factories := [("demo.Input", fun _ => .ok (fun _ => .str "x"))]
    matcher_factories := [] }

/-- A well-formed single-predicate config resolvable in `demoR`. -/
def demoSingleCfg : PredicateConfig :=
  .single ⟨"demo.Input", []⟩ (.builtIn ⟨"Exact", "x"⟩)

/-- A well-formed field-matcher config resolvable in `demoR`. -/
def demoFmCfg : FieldMatcherConfig := .mk demoSingleCfg (.action .null)

/-- The runtime predicate produced by loading `demoSingleCfg` in
`demoR`. -/
def demoLoadedPred : Predicate Unit :=
  .single (fun _ => .str "x")
    (ExactMatcher.matches demoE.fold (ExactMatcher.make demoE.fold "x" false))

/-- The runtime field matcher produced by loading `demoFmCfg` in
`demoR`. -/
def demoLoadedFm : FieldMatcher Unit Doc := .mk demoLoadedPred (.action .null)

/-- A document whose `on_match` carries both an `action` and a
`matcher` key under `type: action`. -/
def bothKeysDoc : Doc :=
  .dict [("matchers", .arr [.dict
    [("predicate", .dict [("type", .str "and")]),
     ("on_match", .dict [("type", .str "action"), ("action", .str "x"),
                         ("matcher", .dict [("matchers", .arr [])])])]])]

/-! ## Lemmas and claim theorems -/

theorem evalFieldMatchers_cons {Ctx A : Type} (fm : FieldMatcher Ctx A)
    (rest : List (FieldMatcher Ctx A)) (ctx : Ctx) :
    evalFieldMatchers (fm :: rest) ctx =
      match fieldResult fm ctx with
      | some a => some a
      | Option.none => evalFieldMatchers rest ctx := by
  obtain ⟨p, om⟩ := fm
  by_cases h : p.evaluate ctx <;>
    simp [evalFieldMatchers, fieldResult, FieldMatcher.predicate, FieldMatcher.on_match, h]

theorem evalFieldMatchers_skip {Ctx A : Type} (pre l : List (FieldMatcher Ctx A))
    (ctx : Ctx) (h : ∀ fm ∈ pre, fieldResult fm ctx = Option.none) :
    evalFieldMatchers (pre ++ l) ctx = evalFieldMatchers l ctx := by
  induction pre with
  | nil => rfl
  | cons fm rest ih =>
      rw [List.cons_append, evalFieldMatchers_cons, h fm (by simp)]
      exact ih (fun x hx => h x (by simp [hx]))

theorem evalFieldMatchers_all_none {Ctx A : Type} (l : List (FieldMatcher Ctx A))
    (ctx : Ctx) (h : ∀ fm ∈ l, fieldResult fm ctx = Option.none) :
    evalFieldMatchers l ctx = Option.none := by
  have hs := evalFieldMatchers_skip l [] ctx h
  simpa using hs

theorem evalAll_append_false {Ctx : Type} (ctx : Ctx) (pre : List (Predicate Ctx))
    (p : Predicate Ctx) (post : List (Predicate Ctx))
    (hpre : ∀ q ∈ pre, q.evaluate ctx = true) (hp : p.evaluate ctx = false) :
    Predicate.evaluate.evalAll (pre ++ p :: post) ctx = false := by
  induction pre with
  | nil => simp [Predicate.evaluate.evalAll, hp]
  | cons q rest ih =>
      rw [List.cons_append]
      simp only [Predicate.evaluate.evalAll, hpre q (by simp), Bool.true_and]
      exact ih (fun x hx => hpre x (by simp [hx]))

theorem evalAny_append_true {Ctx : Type} (ctx : Ctx) (pre : List (Predicate Ctx))
    (p : Predicate Ctx) (post : List (Predicate Ctx))
    (hpre : ∀ q ∈ pre, q.evaluate ctx = false) (hp : p.evaluate ctx = true) :
    Predicate.evaluate.evalAny (pre ++ p :: post) ctx = true := by
  induction pre with
  | nil => simp [Predicate.evaluate.evalAny, hp]
  | cons q rest ih =>
      rw [List.cons_append]
      simp only [Predicate.evaluate.evalAny, hpre q (by simp), Bool.false_or]
      exact ih (fun x hx => hpre x (by simp [hx]))

/-! ## Claim theorems -/

/-- C2: for every `SinglePredicate(input, matcher)` and context `c`
with `input.get(c) = None`, `evaluate(c)` is `False` for every matcher
whatsoever — the matcher is never consulted (the result is independent
of it). -/
theorem single_predicate_none_propagation {Ctx : Type}
    (input : Ctx → MatchingData) (ctx : Ctx)
    (h : input ctx = MatchingData.none) :
    ∀ matcher : MatchingData → Bool,
      (Predicate.single input matcher).evaluate ctx = false := by
  intro matcher
  simp [Predicate.evaluate, h]

/-- Witness for `single_predicate_none_propagation` at a concrete
absent input. -/
theorem single_predicate_none_propagation_witness :
    (Predicate.single (fun _ : Nat => MatchingData.none)
        (fun _ => true)).evaluate 0 = false :=
  single_predicate_none_propagation (fun _ => MatchingData.none) 0 rfl (fun _ => true)

/-- C6: for every context, `And []` evaluates to `true` and `Or []` to
`false`; a false child makes `And` false and a true child makes `Or`
true whatever the later siblings are (left-to-right short-circuit). -/
theorem and_or_vacuous_and_short_circuit {Ctx : Type} (ctx : Ctx) :
    ((Predicate.and ([] : List (Predicate Ctx))).evaluate ctx = true)
    ∧ ((Predicate.or ([] : List (Predicate Ctx))).evaluate ctx = false)
    ∧ (∀ (pre : List (Predicate Ctx)) (p : Predicate Ctx)
        (post : List (Predicate Ctx)),
        (∀ q ∈ pre, q.evaluate ctx = true) → p.evaluate ctx = false →
        (Predicate.and (pre ++ p :: post)).evaluate ctx = false)
    ∧ (∀ (pre : List (Predicate Ctx)) (p : Predicate Ctx)
        (post : List (Predicate Ctx)),
        (∀ q ∈ pre, q.evaluate ctx = false) → p.evaluate ctx = true →
        (Predicate.or (pre ++ p :: post)).evaluate ctx = true) := by
  refine ⟨rfl, rfl, ?_, ?_⟩
  · intro pre p post hpre hp
    have := evalAll_append_false ctx pre p post hpre hp
    simpa [Predicate.evaluate] using this
  · intro pre p post hpre hp
    have := evalAny_append_true ctx pre p post hpre hp
    simpa [Predicate.evaluate] using this

/-- Witness for `and_or_vacuous_and_short_circuit`: a false first
child short-circuits a two-child `And`; a true first child
short-circuits a two-child `Or`. -/
theorem and_or_vacuous_and_short_circuit_witness :
    (Predicate.and ([Predicate.or [], Predicate.and []] :
        List (Predicate Nat))).evaluate 0 = false
    ∧ (Predicate.or ([Predicate.and [], Predicate.or []] :
        List (Predicate Nat))).evaluate 0 = true := by
  constructor
  · exact (and_or_vacuous_and_short_circuit (0 : Nat)).2.2.1
      [] (Predicate.or []) [Predicate.and []] (by simp) rfl
  · exact (and_or_vacuous_and_short_circuit (0 : Nat)).2.2.2
      [] (Predicate.and []) [Predicate.or []] (by simp) rfl

/-- C7: with `ignore_case=True` the pattern is folded once at
construction (cached in the `_cmp_*` field) and the input is folded on
each `matches` call, so Exact/Prefix/Suffix/Contains test equality,
prefix, suffix and substring containment of the folded strings; with
`ignore_case=False` the strings are compared unchanged. -/
theorem string_matchers_case_folding (fold : String → String) (v p : String) :
    (((ExactMatcher.make fold p true).matches fold (.str v) = true) ↔ fold v = fold p)
    ∧ ((ExactMatcher.make fold p true)._cmp_value = fold p)
    ∧ ((PrefixMatcher.make fold p true).matches fold (.str v)
        = (fold v).startsWith (fold p))
    ∧ ((PrefixMatcher.make fold p true)._cmp_prefixStr = fold p)
    ∧ ((SuffixMatcher.make fold p true).matches fold (.str v)
        = (fold v).endsWith (fold p))
    ∧ ((SuffixMatcher.make fold p true)._cmp_suffix = fold p)
    ∧ (((ContainsMatcher.make fold p true).matches fold (.str v) = true)
        ↔ (fold p).data <:+: (fold v).data)
    ∧ ((ContainsMatcher.make fold p true)._cmp_substring = fold p)
    ∧ (((ExactMatcher.make fold p false).matches fold (.str v) = true) ↔ v = p)
    ∧ ((PrefixMatcher.make fold p false).matches fold (.str v) = v.startsWith p)
    ∧ ((SuffixMatcher.make fold p false).matches fold (.str v) = v.endsWith p)
    ∧ (((ContainsMatcher.make fold p false).matches fold (.str v) = true)
        ↔ p.data <:+: v.data) := by
  refine ⟨?_, rfl, rfl, rfl, rfl, rfl, ?_, rfl, ?_, rfl, rfl, ?_⟩
  · simp [ExactMatcher.make, ExactMatcher.matches]
  · simp [ContainsMatcher.make, ContainsMatcher.matches]
  · simp [ExactMatcher.make, ExactMatcher.matches]
  · simp [ContainsMatcher.make, ContainsMatcher.matches]

/-- C1: `Matcher.evaluate` scans the FieldMatchers strictly in list
order.  If every earlier FieldMatcher contributed `None` and the
current predicate holds: an `Action(a)` on_match returns `a`
immediately, for every suffix `post` and every `on_no_match` (so no
later FieldMatcher and no fallback can influence the result); a
`NestedMatcher` whose inner matcher yields `None` makes the result
equal that of the remaining scan, not of `on_no_match`.  When every
FieldMatcher contributes `None`, the result is the evaluation of
`on_no_match` when present and `None` otherwise. -/
theorem matcher_first_match_wins {Ctx A : Type}
    (pre post : List (FieldMatcher Ctx A)) (p : Predicate Ctx)
    (om : OnMatch Ctx A) (onn : Option (OnMatch Ctx A)) (ctx : Ctx)
    (hpre : ∀ fm ∈ pre, fieldResult fm ctx = Option.none)
    (hp : p.evaluate ctx = true) :
    (∀ a, om = .action a →
        (Matcher.mk (pre ++ .mk p om :: post) onn).evaluate ctx = some a)
    ∧ (∀ n, om = .nested n → n.evaluate ctx = Option.none →
        (Matcher.mk (pre ++ .mk p om :: post) onn).evaluate ctx
          = (Matcher.mk post onn).evaluate ctx)
    ∧ (∀ l : List (FieldMatcher Ctx A),
        (∀ fm ∈ l, fieldResult fm ctx = Option.none) →
        ∀ om2, (Matcher.mk l (some om2)).evaluate ctx = evaluate_on_match om2 ctx)
    ∧ (∀ l : List (FieldMatcher Ctx A),
        (∀ fm ∈ l, fieldResult fm ctx = Option.none) →
        (Matcher.mk l Option.none).evaluate ctx = Option.none) := by
  refine ⟨?_, ?_, ?_, ?_⟩
  · rintro a rfl
    have h1 : evalFieldMatchers (pre ++ .mk p (.action a) :: post) ctx = some a := by
      rw [evalFieldMatchers_skip pre _ ctx hpre, evalFieldMatchers.eq_2]
      simp [hp, evaluate_on_match]
    cases onn with
    | none => rw [Matcher.evaluate.eq_2, h1]
    | some om2 => rw [Matcher.evaluate.eq_1, h1]
  · rintro n rfl hn
    have h1 : evalFieldMatchers (pre ++ .mk p (.nested n) :: post) ctx
        = evalFieldMatchers post ctx := by
      rw [evalFieldMatchers_skip pre _ ctx hpre, evalFieldMatchers.eq_2]
      simp [hp, evaluate_on_match, hn]
    cases onn with
    | none => rw [Matcher.evaluate.eq_2, Matcher.evaluate.eq_2, h1]
    | some om2 => rw [Matcher.evaluate.eq_1, Matcher.evaluate.eq_1, h1]
  · intro l hl om2
    rw [Matcher.evaluate.eq_1, evalFieldMatchers_all_none l ctx hl]
  · intro l hl
    rw [Matcher.evaluate.eq_2, evalFieldMatchers_all_none l ctx hl]

/-- Witness for `matcher_first_match_wins`: a failing first
FieldMatcher is skipped, the second fires its action immediately even
though a third FieldMatcher and an `on_no_match` fallback exist. -/
theorem matcher_first_match_wins_witness :
    (Matcher.mk
        ([.mk (.single (fun _ => MatchingData.none) (fun _ => true))
            (.action "early"),
          .mk (.and []) (.action "hit"),
          .mk (.and []) (.action "late")] : List (FieldMatcher Nat String))
        (some (.action "fallback"))).evaluate 0 = some "hit" := by
  have h := (matcher_first_match_wins
      [FieldMatcher.mk (.single (fun _ => MatchingData.none) (fun _ => true))
        (.action "early")]
      [FieldMatcher.mk (.and []) (.action "late")]
      (Predicate.and []) (.action "hit") (some (.action "fallback")) 0
      (by intro fm hfm; rw [List.mem_singleton] at hfm; subst hfm; rfl)
      rfl).1 "hit" rfl
  simpa using h

/-- C3: the `Matcher` constructor validates depth — construction
succeeds exactly when the tree's depth (computed by the
`Matcher.depth` / `predicate_depth` recurrences of the source, which
are the recurrences stated in the claim) is at most `MAX_DEPTH = 32`;
a deeper tree fails with the depth `MatcherError`, and every matcher
returned by the constructor satisfies `depth ≤ 32`. -/
theorem matcher_depth_bound {Ctx A : Type} (fms : List (FieldMatcher Ctx A))
    (onn : Option (OnMatch Ctx A)) :
    ((Matcher.mk fms onn).depth > MAX_DEPTH →
        Matcher.make fms onn = .error (.base ("matcher depth "
          ++ toString (Matcher.mk fms onn).depth
          ++ " exceeds maximum allowed depth " ++ toString MAX_DEPTH)))
    ∧ ((Matcher.mk fms onn).depth ≤ MAX_DEPTH →
        Matcher.make fms onn = .ok (.mk fms onn))
    ∧ (∀ m, Matcher.make fms onn = .ok m →
        m.depth ≤ 32 ∧ m = .mk fms onn) := by
  refine ⟨?_, ?_, ?_⟩
  · intro h
    simp [Matcher.make, h]
  · intro h
    simp [Matcher.make, Nat.not_lt.mpr h]
  · intro m hm
    by_cases h : (Matcher.mk fms onn).depth > MAX_DEPTH
    · simp [Matcher.make, h] at hm
    · simp [Matcher.make, h] at hm
      refine ⟨?_, hm.symm⟩
      rw [← hm]
      exact Nat.not_lt.mp h
  
/-- Witness for `matcher_depth_bound`: a matcher built over 33 nested
`Not`s (depth 35) fails construction with the depth error, while a
flat one-FieldMatcher tree (depth 2) constructs and has depth ≤ 32. -/
theorem matcher_depth_bound_witness :
    Matcher.make [FieldMatcher.mk (deepPred 33) (OnMatch.action (0 : Nat))]
        Option.none
      = .error (.base "matcher depth 35 exceeds maximum allowed depth 32")
    ∧ Matcher.make [FieldMatcher.mk (deepPred 0) (OnMatch.action (0 : Nat))]
        Option.none
      = .ok (.mk [FieldMatcher.mk (deepPred 0) (OnMatch.action 0)] Option.none) := by
  constructor
  · have h := (matcher_depth_bound
        [FieldMatcher.mk (deepPred 33) (OnMatch.action (0 : Nat))]
        Option.none).1 (by decide)
    simpa using h
  · exact (matcher_depth_bound
        [FieldMatcher.mk (deepPred 0) (OnMatch.action (0 : Nat))]
        Option.none).2.1 (by decide)

theorem demo_load_single :
    Registry.load_predicate demoE demoR demoSingleCfg = .ok demoLoadedPred := rfl

theorem demo_load_predicate_list (n : Nat) :
    Registry.load_predicate_list demoE demoR (List.replicate n demoSingleCfg)
      = .ok (List.replicate n demoLoadedPred) := by
  induction n with
  | zero => rfl
  | succ k ih =>
      simp only [List.replicate_succ]
      rw [Registry.load_predicate_list.eq_2, demo_load_single, ih]
      rfl

theorem demo_load_field_matcher_list (n : Nat) :
    Registry.load_field_matcher_list demoE demoR (List.replicate n demoFmCfg)
      = .ok (List.replicate n demoLoadedFm) := by
  induction n with
  | zero => rfl
  | succ k ih =>
      simp only [List.replicate_succ]
      rw [show demoFmCfg = FieldMatcherConfig.mk demoSingleCfg (.action .null) from rfl]
        at ih ⊢
      rw [Registry.load_field_matcher_list.eq_2, demo_load_single, ih]
      rfl

theorem demo_predDepthMax (n : Nat) :
    predDepthMax (List.replicate n demoLoadedFm) ≤ 1 := by
  induction n with
  | zero => exact Nat.zero_le 1
  | succ k ih =>
      simp only [List.replicate_succ]
      rw [predDepthMax.eq_2]
      exact Nat.max_le.mpr ⟨Nat.le_refl 1, ih⟩

theorem demo_onMatchDepthMax (n : Nat) :
    onMatchDepthMax (List.replicate n demoLoadedFm) = 0 := by
  induction n with
  | zero => rfl
  | succ k ih =>
      simp only [List.replicate_succ]
      rw [show demoLoadedFm = FieldMatcher.mk demoLoadedPred (.action .null) from rfl]
        at ih ⊢
      rw [onMatchDepthMax.eq_2, ih]
      rfl

theorem demo_matcher_make_256 :
    (Matcher.make (List.replicate 256 demoLoadedFm)
        (Option.none : Option (OnMatch Unit Doc))).isOk = true := by
  have hd : (Matcher.mk (List.replicate 256 demoLoadedFm) Option.none).depth ≤ 32 := by
    rw [Matcher.depth.eq_2]
    have h1 := demo_predDepthMax 256
    have h2 := demo_onMatchDepthMax 256
    have h3 : Nat.max (predDepthMax (List.replicate 256 demoLoadedFm))
        (Nat.max (onMatchDepthMax (List.replicate 256 demoLoadedFm)) 0) ≤ 1 := by
      refine Nat.max_le.mpr ⟨h1, ?_⟩
      rw [h2]
      exact Nat.zero_le 1
    omega
  unfold Matcher.make
  rw [if_neg (by simp only [MAX_DEPTH]; omega)]
  rfl

/-- C4: `Registry.load_matcher` rejects more than 256 field matchers
with `TooManyFieldMatchers`, compound predicates with more than 256
children with `TooManyPredicates`, built-in non-regex patterns longer
than 8192 with `PatternTooLong`, and built-in `Regex` patterns longer
than 4096 with `PatternTooLong` — each error carrying the observed
count or length and the limit — while configs at exactly the limits
pass the corresponding checks and load. -/
theorem loader_width_and_length_limits {Ctx : Type} (E : Externals) (r : Registry Ctx) :
    (MAX_FIELD_MATCHERS = 256 ∧ MAX_PREDICATES_PER_COMPOUND = 256
      ∧ MAX_PATTERN_LENGTH = 8192 ∧ MAX_REGEX_PATTERN_LENGTH = 4096)
    ∧ (∀ (ms : List FieldMatcherConfig) (onn : Option OnMatchConfig),
        ms.length > MAX_FIELD_MATCHERS →
        r.load_matcher E (.mk ms onn)
          = .error (.tooManyFieldMatchers ms.length MAX_FIELD_MATCHERS))
    ∧ (∀ children : List PredicateConfig,
        children.length > MAX_PREDICATES_PER_COMPOUND →
        r.load_predicate E (.and children)
            = .error (.tooManyPredicates children.length MAX_PREDICATES_PER_COMPOUND)
        ∧ r.load_predicate E (.or children)
            = .error (.tooManyPredicates children.length MAX_PREDICATES_PER_COMPOUND))
    ∧ (∀ variant value, variant ≠ "Regex" → value.length > MAX_PATTERN_LENGTH →
        compile_built_in E variant value
          = .error (.patternTooLong value.length MAX_PATTERN_LENGTH))
    ∧ (∀ value : String, value.length > MAX_REGEX_PATTERN_LENGTH →
        compile_built_in E "Regex" value
          = .error (.patternTooLong value.length MAX_REGEX_PATTERN_LENGTH))
    ∧ ((demoR.load_matcher demoE
          (.mk (List.replicate 256 demoFmCfg) Option.none)).isOk = true)
    ∧ ((demoR.load_predicate demoE
          (.and (List.replicate 256 demoSingleCfg))).isOk = true)
    ∧ ((compile_built_in demoE "Exact"
          (String.mk (List.replicate 8192 'a'))).isOk = true)
    ∧ ((compile_built_in demoE "Regex"
          (String.mk (List.replicate 4096 'a'))).isOk = true) := by
  refine ⟨⟨rfl, rfl, rfl, rfl⟩, ?_, ?_, ?_, ?_, ?_, ?_, ?_, ?_⟩
  · intro ms onn h
    rw [Registry.load_matcher.eq_1, if_pos h]
  · intro children h
    constructor
    · rw [Registry.load_predicate.eq_2, if_pos h]
    · rw [Registry.load_predicate.eq_3, if_pos h]
  · intro variant value hv h
    have hc : check_pattern_length variant value
        = .error (.patternTooLong value.length MAX_PATTERN_LENGTH) := by
      rw [check_pattern_length, if_neg hv, if_pos h]
    unfold compile_built_in
    rw [hc]
  · intro value h
    have hc : check_pattern_length "Regex" value
        = .error (.patternTooLong value.length MAX_REGEX_PATTERN_LENGTH) := by
      rw [check_pattern_length, if_pos rfl, if_pos h]
    unfold compile_built_in
    rw [hc]
  · rw [Registry.load_matcher.eq_1,
      if_neg (by rw [List.length_replicate]; decide)]
    rw [demo_load_field_matcher_list 256]
    exact demo_matcher_make_256
  · rw [Registry.load_predicate.eq_2,
      if_neg (by rw [List.length_replicate]; decide)]
    rw [demo_load_predicate_list 256]
    rfl
  · have hl : (String.mk (List.replicate 8192 'a')).length = 8192 := by
      show (List.replicate 8192 'a').length = 8192
      rw [List.length_replicate]
    have hc : check_pattern_length "Exact" (String.mk (List.replicate 8192 'a'))
        = .ok () := by
      rw [check_pattern_length, if_neg (by decide), if_neg (by rw [hl]; decide)]
    unfold compile_built_in
    rw [hc]
    rfl
  · have hl : (String.mk (List.replicate 4096 'a')).length = 4096 := by
      show (List.replicate 4096 'a').length = 4096
      rw [List.length_replicate]
    have hc : check_pattern_length "Regex" (String.mk (List.replicate 4096 'a'))
        = .ok () := by
      rw [check_pattern_length, if_pos rfl, if_neg (by rw [hl]; decide)]
    unfold compile_built_in
    rw [hc]
    rfl

/-- Witness for `loader_width_and_length_limits`: 257 field matchers
fail with `TooManyFieldMatchers(257, 256)`, 257 compound children with
`TooManyPredicates(257, 256)`, a non-regex pattern of 8193 characters
with `PatternTooLong(8193, 8192)`, and a regex pattern of 4097
characters with `PatternTooLong(4097, 4096)`. -/
theorem loader_width_and_length_limits_witness :
    demoR.load_matcher demoE (.mk (List.replicate 257 demoFmCfg) Option.none)
      = .error (.tooManyFieldMatchers 257 256)
    ∧ demoR.load_predicate demoE (.and (List.replicate 257 demoSingleCfg))
      = .error (.tooManyPredicates 257 256)
    ∧ compile_built_in demoE "Exact" (String.mk (List.replicate 8193 'a'))
      = .error (.patternTooLong 8193 8192)
    ∧ compile_built_in demoE "Regex" (String.mk (List.replicate 4097 'a'))
      = .error (.patternTooLong 4097 4096) := by
  have H := loader_width_and_length_limits demoE demoR
  refine ⟨?_, ?_, ?_, ?_⟩
  · have h := H.2.1 (List.replicate 257 demoFmCfg) Option.none
      (by rw [List.length_replicate]; decide)
    rw [List.length_replicate] at h
    exact h
  · have h := (H.2.2.1 (List.replicate 257 demoSingleCfg)
      (by rw [List.length_replicate]; decide)).1
    rw [List.length_replicate] at h
    exact h
  · have hl : (String.mk (List.replicate 8193 'a')).length = 8193 := by
      show (List.replicate 8193 'a').length = 8193
      rw [List.length_replicate]
    have h := H.2.2.2.1 "Exact" (String.mk (List.replicate 8193 'a'))
      (by decide) (by rw [hl]; decide)
    rw [hl] at h
    exact h
  · have hl : (String.mk (List.replicate 4097 'a')).length = 4097 := by
      show (List.replicate 4097 'a').length = 4097
      rw [List.length_replicate]
    have h := H.2.2.2.2.1 (String.mk (List.replicate 4097 'a')) (by rw [hl]; decide)
    rw [hl] at h
    exact h

/-- C5 (amended): a pattern rejected by the regex engine fails at
construction time — direct `RegexMatcher` construction raises the
plain base `MatcherError`, and the loader's built-in compiler catches
it and re-raises the generic `InvalidConfigError` wrapping the regex
message; no separate invalid-regex error kind exists. -/
theorem regex_rejected_at_construction (E : Externals) (pattern err : String)
    (h : E.re2c pattern = some err) :
    RegexMatcher.make E pattern
      = .error (.base ("invalid regex pattern \"" ++ pattern ++ "\": " ++ err))
    ∧ (pattern.length ≤ MAX_REGEX_PATTERN_LENGTH →
        compile_built_in E "Regex" pattern
          = .error (.invalidConfig ("invalid regex pattern: "
              ++ ("invalid regex pattern \"" ++ pattern ++ "\": " ++ err)))) := by
  have h1 : RegexMatcher.make E pattern
      = .error (.base ("invalid regex pattern \"" ++ pattern ++ "\": " ++ err)) := by
    rw [RegexMatcher.make, h]
  refine ⟨h1, ?_⟩
  intro hlen
  have hc : check_pattern_length "Regex" pattern = .ok () := by
    rw [check_pattern_length, if_pos rfl, if_neg (by omega)]
  unfold compile_built_in
  rw [hc, h1]
  rfl

/-- Witness for `regex_rejected_at_construction` at the concrete
backreference pattern. -/
theorem regex_rejected_at_construction_witness :
    RegexMatcher.make rejectE "(a)\\1"
      = .error (.base ("invalid regex pattern \"" ++ "(a)\\1" ++ "\": "
          ++ "invalid escape sequence: \\1")) :=
  (regex_rejected_at_construction rejectE "(a)\\1"
    "invalid escape sequence: \\1" rfl).1

/-- C5 counterexample: for the backreference pattern `(a)\1`, which
the regex engine rejects, the loader's built-in compiler fails with
the generic `InvalidConfigError` — not with a kind distinct from the
generic invalid-config error — and direct construction raises the
plain base `MatcherError`. -/
theorem regex_error_kind_counterexample :
    compile_built_in rejectE "Regex" "(a)\\1"
      = .error (.invalidConfig ("invalid regex pattern: "
          ++ ("invalid regex pattern \"" ++ "(a)\\1" ++ "\": " ++ "invalid escape sequence: \\1")))
    ∧ RegexMatcher.make rejectE "(a)\\1"
      = .error (.base ("invalid regex pattern \"" ++ "(a)\\1" ++ "\": "
          ++ "invalid escape sequence: \\1")) := by
  have H := regex_rejected_at_construction rejectE "(a)\\1" "invalid escape sequence: \\1" rfl
  exact ⟨H.2 (by decide), H.1⟩

/-- C8 (amended): `_parse_on_match` dispatches on the `type`
discriminator and ignores extra keys; a document whose on_match holds
both an `action` and a `matcher` key parses successfully, following
the tag — `type: action` yields the `ActionConfig` of the `action`
value, `type: matcher` parses the `matcher` value — with no
exclusivity error. -/
theorem on_match_follows_type_discriminator (es : List (String × Doc)) :
    (∀ a, assocGet es "type" = some (.str "action") →
        assocGet es "action" = some a →
        parse_on_match (.dict es) = .ok (.action a))
    ∧ (∀ dm, assocGet es "type" = some (.str "matcher") →
        assocGet es "matcher" = some dm →
        parse_on_match (.dict es)
          = (parse_matcher_config dm).map OnMatchConfig.matcher) := by
  constructor
  · intro a ht ha
    simp only [parse_on_match, ht, ha]
  · intro dm ht hm
    simp only [parse_on_match, ht]
    split
    · rename_i heq
      rw [hm] at heq
      exact Option.noConfusion heq
    · rename_i dm2 heq
      rw [hm] at heq
      obtain rfl : dm = dm2 := Option.some.inj heq
      cases hp : parse_matcher_config dm with
      | ok mc => rfl
      | error e => rfl

/-- Witness for `on_match_follows_type_discriminator`: a concrete
on_match document carrying both keys parses to the action. -/
theorem on_match_follows_type_discriminator_witness :
    parse_on_match (.dict [("type", .str "action"), ("action", .str "x"),
        ("matcher", .int 1)]) = .ok (.action (.str "x")) :=
  (on_match_follows_type_discriminator
    [("type", .str "action"), ("action", .str "x"), ("matcher", .int 1)]).1
    (.str "x") rfl rfl

/-- C8 counterexample: a concrete document whose on_match holds both
an `action` and a `matcher` key parses successfully — no ConfigParse
error is raised; the parser silently follows the `type: action` tag
and returns the action. -/
theorem on_match_exclusivity_counterexample :
    parse_matcher_config bothKeysDoc
      = .ok (.mk [.mk (.and []) (.action (.str "x"))] Option.none) := by
  simp [bothKeysDoc, parse_matcher_config, parse_field_matcher_list,
    parse_field_matcher, parse_predicate, parse_on_match, assocGet]
  rfl

/-- C9: `_parse_single_predicate` enforces the oneof — both
`value_match` and `custom_match` present, and neither present, are
ConfigParse errors; with exactly one present (and the rest
well-formed) parsing succeeds with the corresponding `BuiltInMatch`
or `CustomMatch`. -/
theorem single_predicate_oneof (es : List (String × Doc)) (din : Doc)
    (tc : TypedConfig)
    (hin : assocGet es "input" = some din)
    (htc : parse_typed_config din = .ok tc) :
    (∀ vm cm, assocGet es "value_match" = some vm →
        assocGet es "custom_match" = some cm →
        parse_single_predicate es = .error (.configParse
          "exactly one of 'value_match' or 'custom_match' must be set, got both"))
    ∧ (assocGet es "value_match" = Option.none →
        assocGet es "custom_match" = Option.none →
        parse_single_predicate es = .error (.configParse
          "one of 'value_match' or 'custom_match' is required"))
    ∧ (∀ vm bm, assocGet es "value_match" = some vm →
        assocGet es "custom_match" = Option.none →
        parse_value_match vm = .ok bm →
        parse_single_predicate es = .ok (.single tc (.builtIn bm)))
    ∧ (∀ cm tc2, assocGet es "value_match" = Option.none →
        assocGet es "custom_match" = some cm →
        parse_typed_config cm = .ok tc2 →
        parse_single_predicate es = .ok (.single tc (.custom ⟨tc2⟩))) := by
  refine ⟨?_, ?_, ?_, ?_⟩
  · intro vm cm hv hc
    simp only [parse_single_predicate, hin, htc, hv, hc]
    rfl
  · intro hv hc
    simp only [parse_single_predicate, hin, htc, hv, hc]
    rfl
  · intro vm bm hv hc hbm
    simp only [parse_single_predicate, hin, htc, hv, hc, hbm]
    rfl
  · intro cm tc2 hv hc htc2
    simp only [parse_single_predicate, hin, htc, hv, hc, htc2]
    rfl

/-- Witness for `single_predicate_oneof`: concrete single-predicate
documents exercising both-present, neither-present, value-only and
custom-only. -/
theorem single_predicate_oneof_witness :
    parse_single_predicate
        [("input", .dict [("type_url", .str "demo.Input")]),
         ("value_match", .dict [("Exact", .str "a")]),
         ("custom_match", .dict [("type_url", .str "m.M")])]
      = .error (.configParse
          "exactly one of 'value_match' or 'custom_match' must be set, got both")
    ∧ parse_single_predicate [("input", .dict [("type_url", .str "demo.Input")])]
      = .error (.configParse "one of 'value_match' or 'custom_match' is required")
    ∧ parse_single_predicate
        [("input", .dict [("type_url", .str "demo.Input")]),
         ("value_match", .dict [("Exact", .str "a")])]
      = .ok (.single ⟨"demo.Input", []⟩ (.builtIn ⟨"Exact", "a"⟩))
    ∧ parse_single_predicate
        [("input", .dict [("type_url", .str "demo.Input")]),
         ("custom_match", .dict [("type_url", .str "m.M")])]
      = .ok (.single ⟨"demo.Input", []⟩ (.custom ⟨⟨"m.M", []⟩⟩)) := by
  refine ⟨?_, ?_, ?_, ?_⟩
  · exact (single_predicate_oneof
      [("input", .dict [("type_url", .str "demo.Input")]),
       ("value_match", .dict [("Exact", .str "a")]),
       ("custom_match", .dict [("type_url", .str "m.M")])]
      (.dict [("type_url", .str "demo.Input")]) ⟨"demo.Input", []⟩ rfl rfl).1
      (.dict [("Exact", .str "a")]) (.dict [("type_url", .str "m.M")]) rfl rfl
  · exact (single_predicate_oneof
      [("input", .dict [("type_url", .str "demo.Input")])]
      (.dict [("type_url", .str "demo.Input")]) ⟨"demo.Input", []⟩ rfl rfl).2.1 rfl rfl
  · exact (single_predicate_oneof
      [("input", .dict [("type_url", .str "demo.Input")]),
       ("value_match", .dict [("Exact", .str "a")])]
      (.dict [("type_url", .str "demo.Input")]) ⟨"demo.Input", []⟩ rfl rfl).2.2.1
      (.dict [("Exact", .str "a")]) ⟨"Exact", "a"⟩ rfl rfl rfl
  · exact (single_predicate_oneof
      [("input", .dict [("type_url", .str "demo.Input")]),
       ("custom_match", .dict [("type_url", .str "m.M")])]
      (.dict [("type_url", .str "demo.Input")]) ⟨"demo.Input", []⟩ rfl rfl).2.2.2
      (.dict [("type_url", .str "m.M")]) ⟨"m.M", []⟩ rfl rfl rfl

/-- C10: an `and`/`or` predicate document lacking the `predicates`
key parses without error to an empty compound (the parser defaults the
children to the empty sequence); the loader maps the empty compound to
an empty `And`/`Or` predicate, which evaluates to `true` resp. `false`
for every context. -/
theorem and_or_missing_predicates_defaults {Ctx : Type}
    (es : List (String × Doc)) (E : Externals) (r : Registry Ctx) (ctx : Ctx)
    (hnone : assocGet es "predicates" = Option.none) :
    (assocGet es "type" = some (.str "and") →
        parse_predicate (.dict es) = .ok (.and []))
    ∧ (assocGet es "type" = some (.str "or") →
        parse_predicate (.dict es) = .ok (.or []))
    ∧ (r.load_predicate E (.and []) = .ok (.and [])
        ∧ (Predicate.and ([] : List (Predicate Ctx))).evaluate ctx = true)
    ∧ (r.load_predicate E (.or []) = .ok (.or [])
        ∧ (Predicate.or ([] : List (Predicate Ctx))).evaluate ctx = false) := by
  refine ⟨?_, ?_, ⟨rfl, rfl⟩, ⟨rfl, rfl⟩⟩
  · intro ht
    simp only [parse_predicate, ht]
    split
    · rfl
    · rename_i heq
      rw [hnone] at heq
      exact Option.noConfusion heq
    · rename_i heq
      rw [hnone] at heq
      exact Option.noConfusion heq
  · intro ht
    simp only [parse_predicate, ht]
    split
    · rfl
    · rename_i heq
      rw [hnone] at heq
      exact Option.noConfusion heq
    · rename_i heq
      rw [hnone] at heq
      exact Option.noConfusion heq

/-- Witness for `and_or_missing_predicates_defaults` at concrete
`{"type": "and"}` and `{"type": "or"}` documents. -/
theorem and_or_missing_predicates_defaults_witness :
    parse_predicate (.dict [("type", Doc.str "and")]) = .ok (.and [])
    ∧ parse_predicate (.dict [("type", Doc.str "or")]) = .ok (.or [])
    ∧ (demoR.load_predicate demoE (.and []) = .ok (.and []))
    ∧ ((Predicate.and ([] : List (Predicate Unit))).evaluate () = true) := by
  refine ⟨?_, ?_, ?_, ?_⟩
  · exact (and_or_missing_predicates_defaults [("type", Doc.str "and")]
      demoE demoR () rfl).1 rfl
  · exact (and_or_missing_predicates_defaults [("type", Doc.str "or")]
      demoE demoR () rfl).2.1 rfl
  · exact (and_or_missing_predicates_defaults [("type", Doc.str "and")]
      demoE demoR () rfl).2.2.1.1
  · exact (and_or_missing_predicates_defaults [("type", Doc.str "and")]
      demoE demoR () rfl).2.2.1.2

end Xuma
